import Mathlib

/-!
Verification of the gen-ai-on-aws repository's core logic against its
specification: the phone-number normalizer, the webhook configuration
resolver, the structured-extraction clients, the queue dispatcher and the
queue-message wire format.  Each Python function is shallowly embedded as an
executable Lean definition; external effects (HTTP fetches, the LLM provider,
the SQS client) are passed in as explicit outcome values.
-/

namespace GenAiOnAws

/-! ## Phone Number Normalizer (`_format_phone_number`, `_can_receive_sms`) -/

/-- The cleaning step of `_format_phone_number`:
`"".join(c for c in phone_number if c.isdigit() or c == "+")`.
Keeps every digit and every `+`, wherever it occurs.  (Python `str.isdigit`
is modelled by ASCII `Char.isDigit`; all phone inputs of interest are ASCII.) -/
def cleanPhone (p : String) : List Char :=
  p.data.filter (fun c => c.isDigit || c == '+')

/-- Groups of 3 successive characters, as the Python loop
`for i in range(0, len(remaining), 3): groups.append(remaining[i:i+3])`.
Fuel-indexed so that it is structurally recursive; `l.length` fuel always
suffices because each step consumes at least one character. -/
def chunks3Aux : Nat → List Char → List (List Char)
  | 0, _ => []
  | _, [] => []
  | fuel + 1, c :: rest => (c :: rest.take 2) :: chunks3Aux fuel (rest.drop 2)

/-- Split a character list into groups of 3 (last group possibly shorter). -/
def chunks3 (l : List Char) : List (List Char) :=
  chunks3Aux l.length l

/-- Shallow embedding of `_format_phone_number` from
`gen_ai_on_aws/endpoints/endpoints.py`: sentinel check, cleaning, the
US/Canada branch (`+1` and exactly 12 characters), the German branch
(`+49`, groups of 3), and the fall-through returning the input unchanged. -/
def formatPhoneNumber (p : String) : String :=
  if p = "" ∨ p = "Anonymous" then "Anonymous"
  else if cleanPhone p = [] then p
  else if "+1".data.isPrefixOf (cleanPhone p) ∧ (cleanPhone p).length = 12 then
    "+1 - " ++ String.mk (((cleanPhone p).drop 2).take 3) ++ " - "
      ++ String.mk (((cleanPhone p).drop 5).take 3) ++ " - "
      ++ String.mk ((cleanPhone p).drop 8)
  else if "+49".data.isPrefixOf (cleanPhone p) then
    String.mk ((cleanPhone p).take 3) ++ " - "
      ++ String.intercalate " - " ((chunks3 ((cleanPhone p).drop 3)).map String.mk)
  else p

/-- Shallow embedding of `_can_receive_sms` from
`gen_ai_on_aws/endpoints/endpoints.py`.  Note it inspects the *raw* input
(no cleaning step): `phone_number.startswith("+49")` and then the two
characters after the country code. -/
def canReceiveSms (p : String) : Bool :=
  if p = "" ∨ p = "Anonymous" then false
  else if "+49".data.isPrefixOf p.data then
    match p.data.drop 3 with
    | c0 :: c1 :: _ => c0 == '1' && (c1 == '5' || c1 == '6' || c1 == '7')
    | _ => false
  else true

/-- The cleaning step as the specification's sentence words it: "Strip every
character except digits and a leading `+`" — a `+` is kept only in the
leading position.  This definition follows the claim's words and exists only
to be compared with `cleanPhone`, the code's cleaning step, which keeps
every `+`. -/
def cleanedPerSpec (p : String) : List Char :=
  match p.data with
  | '+' :: rest => '+' :: rest.filter (fun c => c.isDigit)
  | l => l.filter (fun c => c.isDigit)

/-- Claim C1 as stated, instantiated at one input: with the cleaning the
claim describes (digits plus a leading `+` only), a cleaned string of the
`+1`-with-12-characters shape is formatted as `+1 - DDD - DDD - DDDD` from
the cleaned characters, and a cleaned string matching neither that shape nor
the `+49` prefix leaves the input unchanged. -/
def ClaimC1At (p : String) : Prop :=
  p ≠ "" → p ≠ "Anonymous" →
    ("+1".data.isPrefixOf (cleanedPerSpec p) ∧ (cleanedPerSpec p).length = 12 →
      formatPhoneNumber p =
        "+1 - " ++ String.mk (((cleanedPerSpec p).drop 2).take 3) ++ " - "
          ++ String.mk (((cleanedPerSpec p).drop 5).take 3) ++ " - "
          ++ String.mk ((cleanedPerSpec p).drop 8))
    ∧ (¬ ("+1".data.isPrefixOf (cleanedPerSpec p) ∧ (cleanedPerSpec p).length = 12) →
        ¬ "+49".data.isPrefixOf (cleanedPerSpec p) →
        formatPhoneNumber p = p)

example : formatPhoneNumber "+19093586520" = "+1 - 909 - 358 - 6520" := by decide
example : formatPhoneNumber "+491234567890" = "+49 - 123 - 456 - 789 - 0" := by decide
example : formatPhoneNumber "" = "Anonymous" := by decide
example : formatPhoneNumber "Anonymous" = "Anonymous" := by decide
example : formatPhoneNumber "+1+9093586520" = "+1+9093586520" := by decide
example : canReceiveSms "+491701234567" = true := by decide
example : canReceiveSms "+493012345678" = false := by decide
example : canReceiveSms "+19093586520" = true := by decide
example : canReceiveSms "" = false := by decide

/-! ### Claims C1–C4: the phone number normalizer -/

/-- **C1, counterexample.** The claim as stated is false at the concrete
input `"+1+9093586520"`: the cleaning the claim describes keeps only a
leading `+`, yielding the 12-character `"+19093586520"`, so the claim
demands the formatted `"+1 - 909 - 358 - 6520"`; the code's cleaning keeps
every `+`, so its cleaned string has 13 characters, matches no branch, and
the input is returned unchanged. -/
theorem claimC1_counterexample : ¬ ClaimC1At "+1+9093586520" := by
  intro h
  have hc := (h (by decide) (by decide)).1 (by decide)
  exact absurd hc (by decide)

/-- **C1, amended.** For every non-sentinel input, `_format_phone_number`
first strips every character except digits and `+` signs (every `+` is kept,
not only a leading one); if the cleaned string starts with `+1` and has
exactly 12 characters it returns `+1 - DDD - DDD - DDDD` built from the
cleaned characters; for any cleaned string matching neither that shape nor
the `+49` prefix it returns the original input unchanged. -/
theorem formatPhoneNumber_c1 (p : String) (h1 : p ≠ "") (h2 : p ≠ "Anonymous") :
    ("+1".data.isPrefixOf (cleanPhone p) ∧ (cleanPhone p).length = 12 →
      formatPhoneNumber p =
        "+1 - " ++ String.mk (((cleanPhone p).drop 2).take 3) ++ " - "
          ++ String.mk (((cleanPhone p).drop 5).take 3) ++ " - "
          ++ String.mk ((cleanPhone p).drop 8))
    ∧ (¬ ("+1".data.isPrefixOf (cleanPhone p) ∧ (cleanPhone p).length = 12) →
        ¬ "+49".data.isPrefixOf (cleanPhone p) →
        formatPhoneNumber p = p) := by
  have hs : ¬ (p = "" ∨ p = "Anonymous") := by
    rintro (h | h)
    exacts [h1 h, h2 h]
  constructor
  · rintro ⟨hpre, hlen⟩
    have hne : cleanPhone p ≠ [] := by
      intro he
      rw [he] at hlen
      simp at hlen
    simp only [formatPhoneNumber]
    rw [if_neg hs, if_neg hne, if_pos ⟨hpre, hlen⟩]
  · intro hus h49
    by_cases he : cleanPhone p = []
    · simp only [formatPhoneNumber]
      rw [if_neg hs, if_pos he]
    · simp only [formatPhoneNumber]
      rw [if_neg hs, if_neg he, if_neg hus, if_neg h49]

/-- **C1, witness.** The amended claim at two concrete inputs: a well-formed
US number is formatted, and a number matching neither branch (a Swiss
number) is returned unchanged. -/
theorem formatPhoneNumber_c1_witness :
    formatPhoneNumber "+19093586520" = "+1 - 909 - 358 - 6520"
    ∧ formatPhoneNumber "+4130000000" = "+4130000000" := by
  constructor
  · exact ((formatPhoneNumber_c1 "+19093586520" (by decide) (by decide)).1
      (by decide)).trans (by decide)
  · exact (formatPhoneNumber_c1 "+4130000000" (by decide) (by decide)).2
      (by decide) (by decide)

/-- **C2.** For every non-sentinel input whose cleaned form starts with
`+49`, `_format_phone_number` returns `"+49 - "` followed by the remaining
cleaned characters split into groups of 3 joined with `" - "`.  ("Cleaned"
is the function's own cleaning step `cleanPhone`.) -/
theorem formatPhoneNumber_c2 (p : String) (h1 : p ≠ "") (h2 : p ≠ "Anonymous")
    (h49 : "+49".data.isPrefixOf (cleanPhone p)) :
    formatPhoneNumber p =
      "+49 - " ++ String.intercalate " - "
        ((chunks3 ((cleanPhone p).drop 3)).map String.mk) := by
  have hs : ¬ (p = "" ∨ p = "Anonymous") := by
    rintro (h | h)
    exacts [h1 h, h2 h]
  obtain ⟨t, ht⟩ := List.isPrefixOf_iff_prefix.mp h49
  have hcl : cleanPhone p = '+' :: '4' :: '9' :: t := by rw [← ht]; rfl
  have hne : cleanPhone p ≠ [] := by rw [hcl]; exact List.cons_ne_nil _ _
  have hus : ¬ ("+1".data.isPrefixOf (cleanPhone p) ∧ (cleanPhone p).length = 12) := by
    rintro ⟨hpre, -⟩
    rw [hcl] at hpre
    simp [show "+1".data = ['+', '1'] from rfl, List.isPrefixOf] at hpre
  have htake : (cleanPhone p).take 3 = "+49".data := by rw [hcl]; rfl
  simp only [formatPhoneNumber]
  rw [if_neg hs, if_neg hne, if_neg hus, if_pos h49, htake]
  rfl

/-- **C2, witness.** `format("+491234567890") = "+49 - 123 - 456 - 789 - 0"`,
via the theorem at that input. -/
theorem formatPhoneNumber_c2_witness :
    formatPhoneNumber "+491234567890" = "+49 - 123 - 456 - 789 - 0" :=
  (formatPhoneNumber_c2 "+491234567890" (by decide) (by decide) (by decide)).trans
    (by decide)

/-- **C3.** On the sentinel inputs `""` and `"Anonymous"`,
`_format_phone_number` returns `"Anonymous"` and `_can_receive_sms` returns
`false`.  Both embeddings are pure Lean functions (deterministic, no side
effects) and, like the source, test the sentinel before any cleaning. -/
theorem sentinel_c3 :
    formatPhoneNumber "" = "Anonymous"
    ∧ formatPhoneNumber "Anonymous" = "Anonymous"
    ∧ canReceiveSms "" = false
    ∧ canReceiveSms "Anonymous" = false := by decide

/-- **C4.** For every non-sentinel number: if it starts with `+49`, SMS
capability holds iff the character right after the country code is `1` and
the next one is `5`, `6` or `7`; any other number is capable. -/
theorem canReceiveSms_c4 (p : String) (h1 : p ≠ "") (h2 : p ≠ "Anonymous") :
    ("+49".data.isPrefixOf p.data →
      (canReceiveSms p = true ↔
        ∃ c1 c2 rest, p.data.drop 3 = c1 :: c2 :: rest
          ∧ c1 = '1' ∧ (c2 = '5' ∨ c2 = '6' ∨ c2 = '7')))
    ∧ (¬ "+49".data.isPrefixOf p.data → canReceiveSms p = true) := by
  have hs : ¬ (p = "" ∨ p = "Anonymous") := by
    rintro (h | h)
    exacts [h1 h, h2 h]
  constructor
  · intro h49
    simp only [canReceiveSms]
    rw [if_neg hs, if_pos h49]
    rcases hd : p.data.drop 3 with - | ⟨c0, - | ⟨c1, tl⟩⟩
    · simp
    · simp
    · simp only [Bool.and_eq_true, beq_iff_eq, Bool.or_eq_true]
      constructor
      · rintro ⟨h0, hx⟩
        exact ⟨c0, c1, tl, rfl, h0, by tauto⟩
      · rintro ⟨a, b, rest, heq, ha, hb⟩
        injection heq with e1 h'
        injection h' with e2 e3
        subst e1
        subst e2
        exact ⟨ha, by tauto⟩
  · intro h49
    simp only [canReceiveSms]
    rw [if_neg hs, if_neg h49]

/-- **C4, witness.** The three examples of the claim: a German mobile number
(prefix 17x) is capable, a German landline number is not, a US number is
capable by the optimistic default. -/
theorem canReceiveSms_c4_witness :
    canReceiveSms "+491701234567" = true
    ∧ canReceiveSms "+493012345678" = false
    ∧ canReceiveSms "+19093586520" = true := by
  refine ⟨?_, ?_, ?_⟩
  · exact ((canReceiveSms_c4 "+491701234567" (by decide) (by decide)).1
      (by decide)).mpr
      ⟨'1', '7', "01234567".data, by decide, rfl, by decide⟩
  · have h := ((canReceiveSms_c4 "+493012345678" (by decide) (by decide)).1
      (by decide))
    rw [Bool.eq_false_iff]
    intro ht
    rcases h.mp ht with ⟨c1, c2, rest, heq, hc1, -⟩
    rw [show "+493012345678".data.drop 3 = '3' :: '0' :: "12345678".data from
      by decide] at heq
    rw [hc1] at heq
    exact absurd (List.head_eq_of_cons_eq heq) (by decide)
  · exact (canReceiveSms_c4 "+19093586520" (by decide) (by decide)).2 (by decide)

/-! ## Webhook Configuration Resolver (`elevenlabs_webhook`, `supabase_read`)

The handler's external reads are passed in as explicit outcome values.  The
nested Supabase rows are modelled as records whose fields are `Option`s, so
that Python's `dict.get(key, default)` becomes `Option.getD`. -/

/-- The nested `aura_account` record of a Supabase row, restricted to the
fields the handler reads. -/
structure AuraAccount where
  name : Option String
  test_account : Option Bool
  hotel_category : Option String
  preferred_currency : Option String
deriving DecidableEq

/-- The nested agent-configuration record, restricted to the fields read. -/
structure AgentConfig where
  welcomeMessage : Option String
  agentName : Option String
  formOfAddress : Option String
deriving DecidableEq

/-- The nested `phone_number` record of a Supabase row. -/
structure PhoneNumberConfig where
  aura_account : Option AuraAccount
  agent_config : Option AgentConfig
deriving DecidableEq

/-- One row of the `onboarding_data` lookup, restricted to the fields the
handler and `_serialize_locations` read. -/
structure LocationRow where
  id : Option String
  location_name : Option String
  check_in_support_type : Option String
  website_url : Option String
  contact_email : Option String
  phone_number : Option PhoneNumberConfig
deriving DecidableEq

/-- `ElevenLabsWebhookPayload` from `endpoints/types.py`. -/
structure ElevenLabsWebhookPayload where
  caller_id : String
  agent_id : String
  called_number : String
  call_sid : String
  conversation_id : String
deriving DecidableEq

/-- `ElevenLabsWebhookResponse`: the dynamic-variable set, as the ordered
key/value list the handler builds (all values are strings here). -/
structure ElevenLabsWebhookResponse where
  dynamic_variables : List (String × String)
deriving DecidableEq

/-- Python's empty-dict fallback for a missing `phone_number`. -/
def emptyPhoneNumberConfig : PhoneNumberConfig := ⟨none, none⟩

/-- Python's empty-dict fallback for a missing `aura_account`. -/
def emptyAuraAccount : AuraAccount := ⟨none, none, none, none⟩

/-- Python's empty-dict fallback for a missing `agent_config`. -/
def emptyAgentConfig : AgentConfig := ⟨none, none, none⟩

/-- Lower-case hex digit for a value below 16. -/
def hexDigitChar (n : Nat) : Char :=
  if n < 10 then Char.ofNat ('0'.toNat + n) else Char.ofNat ('a'.toNat + (n - 10))

/-- JSON string escaping of one character, as the serialization libraries
used by the code perform it: quote and backslash get a backslash escape, the
common control characters get their two-character escapes, the remaining
control characters become a hexadecimal escape, everything else is emitted
verbatim. -/
def escapeChar (c : Char) : List Char :=
  if c = '"' then ['\\', '"']
  else if c = '\\' then ['\\', '\\']
  else if c = '\n' then ['\\', 'n']
  else if c = '\r' then ['\\', 'r']
  else if c = '\t' then ['\\', 't']
  else if c = '\x08' then ['\\', 'b']
  else if c = '\x0c' then ['\\', 'f']
  else if c.toNat < 32 then
    ['\\', 'u', '0', '0', hexDigitChar (c.toNat / 16), hexDigitChar (c.toNat % 16)]
  else [c]

/-- JSON string escaping of a character list. -/
def escapeList : List Char → List Char
  | [] => []
  | c :: cs => escapeChar c ++ escapeList cs

/-- A JSON string literal: quoted and escaped. -/
def jsonOfString (s : String) : String :=
  "\"" ++ String.mk (escapeList s.data) ++ "\""

/-- A JSON string literal or `null` for Python `None`. -/
def jsonOfOptString : Option String → String
  | none => "null"
  | some s => jsonOfString s

/-- One sanitized location object of `_serialize_locations`: only the five
allowed fields, compact separators, `null` for a missing id or name and
`"not_specified"` defaults for the other three fields. -/
def serializeLocation (loc : LocationRow) : String :=
  "\x7b\"location_id\":" ++ jsonOfOptString loc.id
    ++ ",\"location_name\":" ++ jsonOfOptString loc.location_name
    ++ ",\"check_in_support_type\":"
    ++ jsonOfString (loc.check_in_support_type.getD "not_specified")
    ++ ",\"website_url\":" ++ jsonOfString (loc.website_url.getD "not_specified")
    ++ ",\"contact_email\":" ++ jsonOfString (loc.contact_email.getD "not_specified")
    ++ "\x7d"

/-- `_serialize_locations`: the compact JSON array of sanitized locations. -/
def serializeLocations (locations_data : List LocationRow) : String :=
  "[" ++ String.intercalate "," (locations_data.map serializeLocation) ++ "]"

/-- The static denylist hardcoded in the handler. -/
def blacklistedNumbers : List String := ["+41793000161", "+491787169629"]

/-- Outcome of the Supabase lookup (and of the subsequent mapping): the
parsed row list on success, an `httpx.HTTPStatusError`, or any other raised
exception. -/
inductive FetchResult where
  | rows (locations_data : List LocationRow)
  | httpStatusError (code : Nat) (text : String)
  | exn (msg : String)
deriving DecidableEq

/-- Shallow embedding of the `elevenlabs_webhook` handler body (the auth
dependency has already passed).  The Supabase read is passed in as an
explicit `FetchResult`.  The second component of the result records whether
the data store was consulted: `false` exactly when the handler
short-circuits before issuing the read. -/
def elevenLabsWebhook (payload : ElevenLabsWebhookPayload) (fetch : FetchResult) :
    ElevenLabsWebhookResponse × Bool :=
  if payload.caller_id ∈ blacklistedNumbers then
    (⟨[("error", "Number blocked")]⟩, false)
  else
    match fetch with
    | .httpStatusError _ _ => (⟨[("error", "Failed to fetch configuration")]⟩, true)
    | .exn _ => (⟨[("error", "Internal processing error")]⟩, true)
    | .rows [] => (⟨[("error", "Could not find client configuration")]⟩, true)
    | .rows (first_location :: restRows) =>
      let locations_data := first_location :: restRows
      let phone_number_config := first_location.phone_number.getD emptyPhoneNumberConfig
      let account := phone_number_config.aura_account.getD emptyAuraAccount
      let agent_config := phone_number_config.agent_config.getD emptyAgentConfig
      let formatted_phone_number := formatPhoneNumber payload.caller_id
      let can_receive_sms := canReceiveSms payload.caller_id
      (⟨[("host_name", account.name.getD ""),
         ("test_account", if account.test_account.getD false then "True" else "False"),
         ("mode", if locations_data.length = 1 then "single-location" else "multi-location"),
         ("hotel_category", account.hotel_category.getD ""),
         ("preferred_currency", account.preferred_currency.getD "EUR"),
         ("welcomeMessage", agent_config.welcomeMessage.getD ""),
         ("agent_name", agent_config.agentName.getD ""),
         ("formOfAddress", agent_config.formOfAddress.getD "Formal"),
         ("formatted_user_number", formatted_phone_number),
         ("last_two_digits",
           if 2 ≤ formatted_phone_number.length then
             String.mk (formatted_phone_number.data.drop (formatted_phone_number.length - 2))
           else ""),
         ("can_phone_number_receive_sms_details",
           if can_receive_sms then "User phone number CAN receive SMS"
           else "User phone number CANNOT receive SMS"),
         ("location_details", serializeLocations locations_data)]⟩, true)

/-- The webhook route seen at the HTTP layer: the handler never raises after
auth, so the transport always carries a success response; an `Except.error`
would be an `HTTPException` with its status code. -/
def elevenLabsWebhookRoute (payload : ElevenLabsWebhookPayload) (fetch : FetchResult) :
    Except (Nat × String) ElevenLabsWebhookResponse :=
  Except.ok (elevenLabsWebhook payload fetch).1

/-- `SupabaseReadRequest` from `endpoints/types.py`. -/
structure SupabaseReadRequest where
  table : String
  select : String
  limit : Option Nat
deriving DecidableEq

/-- `SupabaseReadResponse`: the upstream JSON body, opaque here. -/
structure SupabaseReadResponse where
  data : String
deriving DecidableEq

/-- Outcome of the upstream Supabase REST call made by `supabase_read`. -/
inductive UpstreamResult where
  | ok (body : String)
  | httpStatusError (code : Nat) (text : String)
  | exn (msg : String)
deriving DecidableEq

/-- Shallow embedding of the `supabase_read` endpoint: an
`httpx.HTTPStatusError` is surfaced as an `HTTPException` carrying the
upstream status code, any other failure becomes a 500, success returns the
body. -/
def supabaseRead (_request : SupabaseReadRequest) (result : UpstreamResult) :
    Except (Nat × String) SupabaseReadResponse :=
  match result with
  | .ok body => .ok ⟨body⟩
  | .httpStatusError code text => .error (code, "Failed to read from Supabase: " ++ text)
  | .exn msg => .error (500, "Failed to read from Supabase: " ++ msg)

/-- First value bound to a key in the dynamic-variable set. -/
def getVar (response : ElevenLabsWebhookResponse) (key : String) : Option String :=
  response.dynamic_variables.lookup key

/-! ### Claims C5–C7: the webhook resolver's control flow -/

/-- **C5.** A payload whose caller id is in the static two-number denylist
short-circuits: the resolver answers the error-tagged variable set
`Number blocked` for every fetch outcome, and the data store is never
consulted (the access flag of the embedding is `false`). -/
theorem elevenLabsWebhook_c5 (payload : ElevenLabsWebhookPayload) (fetch : FetchResult)
    (h : payload.caller_id ∈ blacklistedNumbers) :
    elevenLabsWebhook payload fetch = (⟨[("error", "Number blocked")]⟩, false) := by
  simp only [elevenLabsWebhook]
  rw [if_pos h]

/-- **C5, witness.** The first denylisted number, with an arbitrary fetch
outcome. -/
theorem elevenLabsWebhook_c5_witness :
    elevenLabsWebhook ⟨"+41793000161", "agent", "+15550000000", "sid", "conv"⟩
        (.rows []) =
      (⟨[("error", "Number blocked")]⟩, false) :=
  elevenLabsWebhook_c5 _ _ (by decide)

/-- **C6.** For a non-blocked call: an empty lookup yields the
`Could not find client configuration` error set; exactly one row sets the
`mode` variable to `single-location`; more than one row sets it to
`multi-location`. -/
theorem elevenLabsWebhook_c6 (payload : ElevenLabsWebhookPayload)
    (h : payload.caller_id ∉ blacklistedNumbers) :
    (elevenLabsWebhook payload (.rows [])).1 =
        ⟨[("error", "Could not find client configuration")]⟩
    ∧ (∀ r : LocationRow,
        getVar (elevenLabsWebhook payload (.rows [r])).1 "mode" = some "single-location")
    ∧ (∀ (r1 r2 : LocationRow) (rest : List LocationRow),
        getVar (elevenLabsWebhook payload (.rows (r1 :: r2 :: rest))).1 "mode" =
          some "multi-location") := by
  refine ⟨?_, ?_, ?_⟩
  · simp only [elevenLabsWebhook]
    rw [if_neg h]
  · intro r
    simp only [elevenLabsWebhook]
    rw [if_neg h]
    simp [getVar, List.lookup]
  · intro r1 r2 rest
    simp only [elevenLabsWebhook]
    rw [if_neg h]
    simp [getVar, List.lookup]

/-- A non-blocked sample payload for witnesses. -/
def samplePayload : ElevenLabsWebhookPayload :=
  ⟨"+19093586520", "agent", "+15550000000", "sid", "conv"⟩

/-- A sample Supabase row with every optional field absent. -/
def sampleRow : LocationRow := ⟨none, none, none, none, none, none⟩

/-- **C6, witness.** The three cases at a concrete payload and row. -/
theorem elevenLabsWebhook_c6_witness :
    (elevenLabsWebhook samplePayload (.rows [])).1 =
        ⟨[("error", "Could not find client configuration")]⟩
    ∧ getVar (elevenLabsWebhook samplePayload (.rows [sampleRow])).1 "mode" =
        some "single-location"
    ∧ getVar (elevenLabsWebhook samplePayload (.rows [sampleRow, sampleRow])).1 "mode" =
        some "multi-location" := by
  obtain ⟨a, b, c⟩ := elevenLabsWebhook_c6 samplePayload (by decide)
  exact ⟨a, b sampleRow, c sampleRow sampleRow []⟩

/-- **C7.** After the blocklist check, every lookup or mapping failure is
converted into an error-tagged variable set while the route still returns a
success (200) response for every payload and fetch outcome; by contrast the
generic Supabase-read endpoint re-raises an upstream HTTP failure with the
upstream's own status code. -/
theorem errorChannel_c7 (payload : ElevenLabsWebhookPayload)
    (h : payload.caller_id ∉ blacklistedNumbers) :
    (∀ (q : ElevenLabsWebhookPayload) (fetch : FetchResult),
        ∃ r, elevenLabsWebhookRoute q fetch = .ok r)
    ∧ (∀ code text, (elevenLabsWebhook payload (.httpStatusError code text)).1 =
        ⟨[("error", "Failed to fetch configuration")]⟩)
    ∧ (∀ msg, (elevenLabsWebhook payload (.exn msg)).1 =
        ⟨[("error", "Internal processing error")]⟩)
    ∧ (∀ (request : SupabaseReadRequest) (code : Nat) (text : String),
        supabaseRead request (.httpStatusError code text) =
          .error (code, "Failed to read from Supabase: " ++ text)) := by
  refine ⟨fun q fetch => ⟨_, rfl⟩, ?_, ?_, fun _ code text => rfl⟩
  · intro code text
    simp only [elevenLabsWebhook]
    rw [if_neg h]
  · intro msg
    simp only [elevenLabsWebhook]
    rw [if_neg h]

/-- **C7, witness.** A swallowed webhook processing error versus the
Supabase-read endpoint surfacing an upstream 404 as a 404. -/
theorem errorChannel_c7_witness :
    elevenLabsWebhookRoute samplePayload (.exn "boom") =
      .ok ⟨[("error", "Internal processing error")]⟩
    ∧ supabaseRead ⟨"onboarding_data", "*", none⟩ (.httpStatusError 404 "not found") =
      .error (404, "Failed to read from Supabase: not found") := by
  obtain ⟨-, -, hexn, hsb⟩ := errorChannel_c7 samplePayload (by decide)
  constructor
  · show Except.ok (elevenLabsWebhook samplePayload (.exn "boom")).1 = _
    rw [hexn "boom"]
  · exact hsb ⟨"onboarding_data", "*", none⟩ 404 "not found"

/-! ## Structured Extraction Client: the worker's processor and the HTTP
endpoint -/

/-- `ExtractUserRequest`: the free text to mine. -/
structure ExtractUserRequest where
  text : String
deriving DecidableEq

/-- `User`: the fixed extraction schema (name, age, optional email). -/
structure User where
  name : String
  age : Int
  email : Option String
deriving DecidableEq

/-- Outcome of the LLM provider call: a validated result (possibly the
explicit no-match value) or a raised error. -/
inductive LlmOutcome where
  | ok (user : Option User)
  | exn (msg : String)
deriving DecidableEq

/-- Shallow embedding of `Processor.process_extract_user_request` from
`worker/services/processor.py`: the provider call sits in a try/except whose
handler returns `None`. -/
def processExtractUserRequest (_request : ExtractUserRequest)
    (_request_id : Option String) (llm : LlmOutcome) : Option User :=
  match llm with
  | .ok user => user
  | .exn _ => none

/-- Shallow embedding of the HTTP `/extract-user` endpoint from
`endpoints/endpoints.py`: the provider call has no try/except, so a raised
error escapes the handler (`Except.error`). -/
def extractUser (_request : ExtractUserRequest) (llm : LlmOutcome) :
    Except String (Option User) :=
  match llm with
  | .ok user => .ok user
  | .exn msg => .error msg

/-! ### Claim C8: fail-soft extraction -/

/-- Claim C8 as stated, at one input: on a provider error *both* the
worker's processor and the HTTP endpoint return the absence value instead
of propagating the error. -/
def ClaimC8At (request : ExtractUserRequest) (msg : String) : Prop :=
  processExtractUserRequest request none (.exn msg) = none
  ∧ extractUser request (.exn msg) = .ok none

/-- **C8, counterexample.** At the concrete request `"hello"` and provider
error `"provider error"`, the HTTP `/extract-user` endpoint propagates the
error (there is no try/except around its provider call), so the claim that
every extraction path fails soft is false. -/
theorem claimC8_counterexample : ¬ ClaimC8At ⟨"hello"⟩ "provider error" := by
  intro h
  exact Except.noConfusion h.2

/-- **C8, amended.** On any provider error the worker's processor returns
the absence value, but the HTTP `/extract-user` endpoint propagates the
error instead; on a successful provider call both return the provider's
(possibly absent) result. -/
theorem failSoft_c8 (request : ExtractUserRequest) (request_id : Option String)
    (msg : String) (user : Option User) :
    processExtractUserRequest request request_id (.exn msg) = none
    ∧ extractUser request (.exn msg) = .error msg
    ∧ processExtractUserRequest request request_id (.ok user) = user
    ∧ extractUser request (.ok user) = .ok user :=
  ⟨rfl, rfl, rfl, rfl⟩

/-! ## Queue Dispatcher and the queue-message wire format -/

/-- `QueueMessage`: the envelope of one enqueue attempt. -/
structure QueueMessage where
  request_id : String
  payload : ExtractUserRequest
deriving DecidableEq

/-- `uuid.uuid4()` modelled as a draw from a fresh-identifier supply: the
supply state advances on every call and distinct states yield distinct
identifiers, which is the freshness guarantee the code relies on. -/
def uuidOf (gen : Nat) : String :=
  String.mk (List.replicate gen 'u')

/-- Outcome of `sqs_client.send_message`. -/
inductive SqsOutcome where
  | ok (messageId : String)
  | exn (msg : String)
deriving DecidableEq

/-- What one `QueueService.send_message` call produced: the value returned
to the caller (`none` models Python's `None` on a caught submission error),
the `QueueMessage` it built and serialized, and the advanced supply state. -/
structure SendReport where
  returned : Option String
  sent : QueueMessage
  nextGen : Nat
deriving DecidableEq

/-- Shallow embedding of `QueueService.send_message` from
`app/gen_ai_on_aws/services/queue_service.py`: generate a fresh identifier,
wrap it with the payload into a `QueueMessage`, submit its JSON body;
return the identifier on success and `None` on any submission error (the
exception is caught and never re-raised). -/
def sendMessage (payload : ExtractUserRequest) (gen : Nat) (outcome : SqsOutcome) :
    SendReport :=
  let request_id := uuidOf gen
  let message : QueueMessage := ⟨request_id, payload⟩
  match outcome with
  | .ok _ => ⟨some request_id, message, gen + 1⟩
  | .exn _ => ⟨none, message, gen + 1⟩

/-- Distinct supply states yield distinct identifiers. -/
theorem uuidOf_injOn (a b : Nat) (h : uuidOf a = uuidOf b) : a = b := by
  have h2 : (List.replicate a 'u').length = (List.replicate b 'u').length :=
    congrArg (fun s : String => s.data.length) h
  simpa using h2

/-! ### Claim C9: the dispatcher's identifier and failure contract -/

/-- **C9.** `send_message` returns the freshly generated identifier on
success and the absence value on a submission error (the embedding is a
total function: nothing is re-raised); the message it builds carries
exactly that identifier and the payload; identifiers generated at distinct
supply states are never equal; and every call advances the supply state. -/
theorem sendMessage_c9 (payload payload' : ExtractUserRequest) (gen gen' : Nat)
    (outcome outcome' : SqsOutcome) (messageId failMsg : String)
    (hne : gen ≠ gen') :
    (sendMessage payload gen (.ok messageId)).returned = some (uuidOf gen)
    ∧ (sendMessage payload gen outcome).sent = ⟨uuidOf gen, payload⟩
    ∧ (sendMessage payload gen (.exn failMsg)).returned = none
    ∧ (sendMessage payload gen outcome).sent.request_id ≠
        (sendMessage payload' gen' outcome').sent.request_id
    ∧ (sendMessage payload gen outcome).nextGen = gen + 1 := by
  refine ⟨rfl, ?_, rfl, ?_, ?_⟩
  · cases outcome <;> rfl
  · cases outcome <;> cases outcome' <;>
      exact fun hEq => hne (uuidOf_injOn _ _ hEq)
  · cases outcome <;> rfl

/-- **C9, witness.** Two calls at successive supply states: the first
succeeds and returns its generated identifier, and the two generated
identifiers differ. -/
theorem sendMessage_c9_witness :
    (sendMessage ⟨"some text"⟩ 0 (.ok "mid")).returned = some (uuidOf 0)
    ∧ (sendMessage ⟨"some text"⟩ 0 (.ok "mid")).sent.request_id ≠
        (sendMessage ⟨"other text"⟩ 1 (.ok "mid2")).sent.request_id := by
  obtain ⟨h1, -, -, h4, -⟩ :=
    sendMessage_c9 ⟨"some text"⟩ ⟨"other text"⟩ 0 1 (.ok "mid") (.ok "mid2")
      "mid" "any" (by decide)
  exact ⟨h1, h4⟩

/-! ### Claim C10: the JSON wire format and its round-trip

`message.model_dump_json()` emits the compact object
`\x7b"request_id": string, "payload": \x7b"text": string\x7d\x7d` with JSON
string escaping; `QueueMessage.model_validate_json` in the worker parses it
back.  The serializer and the string-body parser are modelled down to the
character level, including the escapes. -/

/-- Decode a two-character JSON escape (the character after the
backslash). -/
def decodeSimpleEscape (e : Char) : Option Char :=
  if e = '"' then some '"'
  else if e = '\\' then some '\\'
  else if e = '/' then some '/'
  else if e = 'n' then some '\n'
  else if e = 'r' then some '\r'
  else if e = 't' then some '\t'
  else if e = 'b' then some '\x08'
  else if e = 'f' then some '\x0c'
  else none

/-- Value of a hexadecimal digit character. -/
def hexVal (c : Char) : Option Nat :=
  if '0' ≤ c ∧ c ≤ '9' then some (c.toNat - '0'.toNat)
  else if 'a' ≤ c ∧ c ≤ 'f' then some (c.toNat - 'a'.toNat + 10)
  else if 'A' ≤ c ∧ c ≤ 'F' then some (c.toNat - 'A'.toNat + 10)
  else none

/-- JSON string-body parser: consumes characters up to and including the
closing quote, undoing the escapes `escapeChar` emits (plus the optional
solidus escape); returns the decoded content and the remaining input.
Hexadecimal escapes in the surrogate range, which `escapeChar` never
produces, are rejected. -/
def parseJsonString (l : List Char) : Option (List Char × List Char) :=
  match l with
  | [] => none
  | c :: rest =>
    if c = '"' then some ([], rest)
    else if c = '\\' then
      match rest with
      | [] => none
      | e :: rest2 =>
        if e = 'u' then
          match rest2 with
          | h1 :: h2 :: h3 :: h4 :: rest3 =>
            match hexVal h1, hexVal h2, hexVal h3, hexVal h4 with
            | some v1, some v2, some v3, some v4 =>
              let v := ((v1 * 16 + v2) * 16 + v3) * 16 + v4
              if v < 55296 then
                (fun q => (Char.ofNat v :: q.1, q.2)) <$> parseJsonString rest3
              else none
            | _, _, _, _ => none
          | _ => none
        else
          match decodeSimpleEscape e with
          | some d => (fun q => (d :: q.1, q.2)) <$> parseJsonString rest2
          | none => none
    else (fun q => (c :: q.1, q.2)) <$> parseJsonString rest

/-- Consume an expected literal prefix. -/
def expectLit : List Char → List Char → Option (List Char)
  | [], s => some s
  | _ :: _, [] => none
  | a :: as, c :: cs => if a = c then expectLit as cs else none

/-- The wire body of one `QueueMessage`, as `model_dump_json` produces it:
a compact JSON object with the `request_id` string and the nested payload
object holding the `text` string, both escaped. -/
def serializeQueueMessage (message : QueueMessage) : String :=
  String.mk ("\x7b\"request_id\":\"".data
    ++ escapeList message.request_id.data
    ++ "\",\"payload\":\x7b\"text\":\"".data
    ++ escapeList message.payload.text.data
    ++ "\"\x7d\x7d".data)

/-- The worker-side deserialization (`model_validate_json`) restricted to
the wire shape the dispatcher emits: the same object frame with the two
escaped string fields, rejecting anything else. -/
def parseQueueMessage (s : String) : Option QueueMessage :=
  match expectLit "\x7b\"request_id\":\"".data s.data with
  | none => none
  | some r1 =>
    match parseJsonString r1 with
    | none => none
    | some (rid, r2) =>
      match expectLit ",\"payload\":\x7b\"text\":\"".data r2 with
      | none => none
      | some r3 =>
        match parseJsonString r3 with
        | none => none
        | some (text, r4) =>
          if r4 = "\x7d\x7d".data then some ⟨String.mk rid, ⟨String.mk text⟩⟩
          else none

/-- Hexadecimal digits decode back to their value. -/
theorem hexVal_hexDigitChar (n : Nat) (h : n < 16) :
    hexVal (hexDigitChar n) = some n := by
  interval_cases n <;> rfl

/-- Parsing after one emitted escape prepends the original character. -/
theorem parseJsonString_escapeChar (c : Char) (t : List Char) :
    parseJsonString (escapeChar c ++ t) =
      (fun q => (c :: q.1, q.2)) <$> parseJsonString t := by
  by_cases h1 : c = '"'
  · subst h1
    show parseJsonString ('\\' :: '"' :: t) = _
    conv_lhs => unfold parseJsonString
    simp [decodeSimpleEscape]
  by_cases h2 : c = '\\'
  · subst h2
    show parseJsonString ('\\' :: '\\' :: t) = _
    conv_lhs => unfold parseJsonString
    simp [decodeSimpleEscape]
  by_cases h3 : c = '\n'
  · subst h3
    show parseJsonString ('\\' :: 'n' :: t) = _
    conv_lhs => unfold parseJsonString
    simp [decodeSimpleEscape]
  by_cases h4 : c = '\r'
  · subst h4
    show parseJsonString ('\\' :: 'r' :: t) = _
    conv_lhs => unfold parseJsonString
    simp [decodeSimpleEscape]
  by_cases h5 : c = '\t'
  · subst h5
    show parseJsonString ('\\' :: 't' :: t) = _
    conv_lhs => unfold parseJsonString
    simp [decodeSimpleEscape]
  by_cases h6 : c = '\x08'
  · subst h6
    show parseJsonString ('\\' :: 'b' :: t) = _
    conv_lhs => unfold parseJsonString
    simp [decodeSimpleEscape]
  by_cases h7 : c = '\x0c'
  · subst h7
    show parseJsonString ('\\' :: 'f' :: t) = _
    conv_lhs => unfold parseJsonString
    simp [decodeSimpleEscape]
  by_cases h8 : c.toNat < 32
  · have hhi : hexVal (hexDigitChar (c.toNat / 16)) = some (c.toNat / 16) :=
      hexVal_hexDigitChar _ (by omega)
    have hlo : hexVal (hexDigitChar (c.toNat % 16)) = some (c.toNat % 16) :=
      hexVal_hexDigitChar _ (Nat.mod_lt _ (by omega))
    simp only [escapeChar, if_neg h1, if_neg h2, if_neg h3, if_neg h4, if_neg h5,
      if_neg h6, if_neg h7, if_pos h8, List.cons_append, List.nil_append]
    conv_lhs => unfold parseJsonString
    simp only [reduceCtorEq, reduceIte, hhi, hlo, show hexVal '0' = some 0 from rfl]
    rw [if_neg (show ¬ ('\\' : Char) = '"' from by decide)]
    have hdm := Nat.div_add_mod c.toNat 16
    rw [show ((0 * 16 + 0) * 16 + c.toNat / 16) * 16 + c.toNat % 16 = c.toNat from
      by omega]
    rw [if_pos (show c.toNat < 55296 from by omega), Char.ofNat_toNat]
  · simp only [escapeChar, if_neg h1, if_neg h2, if_neg h3, if_neg h4, if_neg h5,
      if_neg h6, if_neg h7, if_neg h8, List.cons_append, List.nil_append]
    conv_lhs => unfold parseJsonString
    simp [h1, h2]

/-- Parsing an escaped body followed by the closing quote recovers the
body and the rest of the input. -/
theorem parseJsonString_escapeList (s t : List Char) :
    parseJsonString (escapeList s ++ '"' :: t) = some (s, t) := by
  induction s with
  | nil =>
    show parseJsonString ('"' :: t) = some ([], t)
    conv_lhs => unfold parseJsonString
    simp
  | cons c cs ih =>
    rw [show escapeList (c :: cs) = escapeChar c ++ escapeList cs from rfl,
      List.append_assoc, parseJsonString_escapeChar, ih]
    rfl

/-- A literal prefix is consumed exactly. -/
theorem expectLit_self_append (lit s : List Char) :
    expectLit lit (lit ++ s) = some s := by
  induction lit with
  | nil => rfl
  | cons a as ih => simp [expectLit, ih]

/-- Deserializing a serialized message recovers it exactly. -/
theorem parseQueueMessage_serialize (message : QueueMessage) :
    parseQueueMessage (serializeQueueMessage message) = some message := by
  obtain ⟨rid, ⟨text⟩⟩ := message
  have hdata : (serializeQueueMessage ⟨rid, ⟨text⟩⟩).data
      = "\x7b\"request_id\":\"".data
        ++ (escapeList rid.data
          ++ '"' :: (",\"payload\":\x7b\"text\":\"".data
            ++ (escapeList text.data ++ '"' :: "\x7d\x7d".data))) := by
    show "\x7b\"request_id\":\"".data ++ escapeList rid.data
        ++ "\",\"payload\":\x7b\"text\":\"".data ++ escapeList text.data
        ++ "\"\x7d\x7d".data = _
    rw [show "\",\"payload\":\x7b\"text\":\"".data
        = '"' :: ",\"payload\":\x7b\"text\":\"".data from rfl,
      show "\"\x7d\x7d".data = '"' :: "\x7d\x7d".data from rfl]
    simp [List.append_assoc]
  simp only [parseQueueMessage, hdata, expectLit_self_append,
    parseJsonString_escapeList]
  rfl

/-- **C10.** Round-trip: serializing the `QueueMessage` built at enqueue
time to its JSON wire form and deserializing that body in the worker yields
the same message — its `payload.text` is the original input text and its
`request_id` is the generated identifier. -/
theorem roundTrip_c10 (text : String) (gen : Nat) (outcome : SqsOutcome) :
    parseQueueMessage (serializeQueueMessage ((sendMessage ⟨text⟩ gen outcome).sent)) =
      some ⟨uuidOf gen, ⟨text⟩⟩
    ∧ ((sendMessage ⟨text⟩ gen outcome).sent).payload.text = text := by
  have hsent : (sendMessage ⟨text⟩ gen outcome).sent = ⟨uuidOf gen, ⟨text⟩⟩ := by
    cases outcome <;> rfl
  rw [hsent]
  exact ⟨parseQueueMessage_serialize _, rfl⟩

end GenAiOnAws
